import Mathlib

/-
Verification of the analytic potential-flow formula library in
src/aero_functions.py.  Elementwise numpy array expressions are embedded
as pointwise real-valued functions of a grid point (X, Y); the few
operations where array shape matters (numpy.ones, numpy.zeros,
numpy.meshgrid, numpy.linspace) are embedded over a shape-carrying
array type Arr.
-/

namespace AeroFns

/-- numpy.arctan2 y x : the angle of the point (x, y), in (-pi, pi],
realised as the argument of the complex number x + y*i. -/
noncomputable def arctan2 (y x : ℝ) : ℝ := Complex.arg ⟨x, y⟩

/-- Embeds class Source (src/aero_functions.py lines 10-40): the
constructor stores strength and position. -/
structure Source where
  strength : ℝ
  x : ℝ
  y : ℝ

/-- Source.velocity: the pair of attributes (u, v) set by the method
(lines 30-31). -/
noncomputable def Source.velocity (s : Source) (X Y : ℝ) : ℝ × ℝ :=
  (s.strength/(2*Real.pi)*(X-s.x)/((X-s.x)^2+(Y-s.y)^2),
   s.strength/(2*Real.pi)*(Y-s.y)/((X-s.x)^2+(Y-s.y)^2))

/-- Source.stream_function: the attribute psi set by the method (line 40). -/
noncomputable def Source.stream_function (s : Source) (X Y : ℝ) : ℝ :=
  s.strength/(2*Real.pi)*arctan2 (Y-s.y) (X-s.x)

/-- Embeds class Vortex (src/aero_functions.py lines 42-72). -/
structure Vortex where
  strength : ℝ
  x : ℝ
  y : ℝ

/-- Vortex.velocity: the pair of attributes (u, v) set by the method
(lines 62-63). -/
noncomputable def Vortex.velocity (v : Vortex) (X Y : ℝ) : ℝ × ℝ :=
  (v.strength/(2*Real.pi)*(Y-v.y)/((X-v.x)^2+(Y-v.y)^2),
   (-v.strength)/(2*Real.pi)*(X-v.x)/((X-v.x)^2+(Y-v.y)^2))

/-- Vortex.stream_function: the attribute psi set by the method (line 72). -/
noncomputable def Vortex.stream_function (v : Vortex) (X Y : ℝ) : ℝ :=
  (-v.strength)/(4*Real.pi)*Real.log ((X-v.x)^2+(Y-v.y)^2)

/-- get_vortex_info (lines 117-136), pointwise at a grid point (X, Y). -/
noncomputable def get_vortex_info (strength xv yv X Y : ℝ) : ℝ × ℝ × ℝ :=
  (strength/(2*Real.pi)*(Y-yv)/((X-xv)^2+(Y-yv)^2),
   (-strength)/(2*Real.pi)*(X-xv)/((X-xv)^2+(Y-yv)^2),
   strength/(4*Real.pi)*Real.log (Real.sqrt ((X-xv)^2+(Y-yv)^2)))

/-- get_ss_info (lines 160-179), pointwise at a grid point (X, Y). -/
noncomputable def get_ss_info (strength xs ys X Y : ℝ) : ℝ × ℝ × ℝ :=
  (strength/(2*Real.pi)*(X-xs)/((X-xs)^2+(Y-ys)^2),
   strength/(2*Real.pi)*(Y-ys)/((X-xs)^2+(Y-ys)^2),
   strength/(2*Real.pi)*arctan2 (Y-ys) (X-xs))

/-- get_doublet_info (lines 181-200), pointwise at a grid point (X, Y). -/
noncomputable def get_doublet_info (strength xd yd X Y : ℝ) : ℝ × ℝ × ℝ :=
  ((-strength)/(2*Real.pi)*((X-xd)^2-(Y-yd)^2)/((X-xd)^2+(Y-yd)^2)^2,
   (-strength)/(2*Real.pi)*2*(X-xd)*(Y-yd)/((X-xd)^2+(Y-yd)^2)^2,
   (-strength)/(2*Real.pi)*(Y-yd)/((X-xd)^2+(Y-yd)^2))

/-- get_velocity_infinite_vortices (lines 138-158), pointwise at a grid
point (X, Y); x_vortices is the 1D array of vortex x-positions, indexed
as in the code (entries 0 and 1). -/
noncomputable def get_velocity_infinite_vortices (gamma X Y : ℝ)
    (x_vortices : List ℝ) : ℝ × ℝ :=
  let a := x_vortices.getD 1 0 - x_vortices.getD 0 0
  let c := 2*Real.pi/a
  ((gamma/(2*a))*(Real.sinh (c*Y)/(Real.cosh (c*Y) - Real.cos (c*X))),
   (-(gamma/(2*a)))*(Real.sin (c*X)/(Real.cosh (c*Y) - Real.cos (c*X))))

/-- A 2D numpy array: a shape (rows, cols) together with the entries,
given as a total function on indices. -/
structure Arr where
  rows : ℕ
  cols : ℕ
  data : ℕ → ℕ → ℝ

/-- Scalar times array (numpy broadcasting of a scalar). -/
noncomputable def Arr.smul (c : ℝ) (A : Arr) : Arr :=
  ⟨A.rows, A.cols, fun i j => c * A.data i j⟩

/-- Elementwise difference of two arrays of one shape; numpy raises on
shape mismatch, here the shape of the first operand is carried. -/
noncomputable def Arr.sub (A B : Arr) : Arr :=
  ⟨A.rows, A.cols, fun i j => A.data i j - B.data i j⟩

/-- numpy.ones((n, m)). -/
noncomputable def Arr.ones (n m : ℕ) : Arr := ⟨n, m, fun _ _ => 1⟩

/-- numpy.zeros((n, m)). -/
noncomputable def Arr.zeros (n m : ℕ) : Arr := ⟨n, m, fun _ _ => 0⟩

/-- get_freestream_info (lines 94-115): u and v are built from
ones((N,N)) and zeros((N,N)), psi from the grid arrays X, Y. -/
noncomputable def get_freestream_info (u_inf alpha : ℝ) (X Y : Arr)
    (N : ℕ) : Arr × Arr × Arr :=
  (Arr.smul (u_inf * Real.cos alpha) (Arr.ones N N),
   Arr.smul (u_inf * Real.sin alpha) (Arr.zeros N N),
   Arr.smul u_inf (Arr.sub (Arr.smul (Real.cos alpha) Y)
     (Arr.smul (Real.sin alpha) X)))

/-- numpy.linspace start stop N, as a total index function: N evenly
spaced samples from start to stop; a single sample is start. -/
noncomputable def linspace (start stop : ℝ) (N : ℕ) : ℕ → ℝ :=
  fun i => if N ≤ 1 then start else start + i * (stop - start) / ((N : ℝ) - 1)

/-- numpy.meshgrid x y for 1D inputs of length N: X repeats x along
rows, Y repeats y along columns. -/
noncomputable def meshgrid (x y : ℕ → ℝ) (N : ℕ) : Arr × Arr :=
  (⟨N, N, fun _ j => x j⟩, ⟨N, N, fun i _ => y i⟩)

/-- create_grid (lines 74-92): linspace along each axis, then meshgrid. -/
noncomputable def create_grid (N : ℕ) (x_start x_end y_start y_end : ℝ) :
    Arr × Arr :=
  meshgrid (linspace x_start x_end N) (linspace y_start y_end N) N

/-- The stream-function form the spec attributes to get_ss_info:
psi = strength/(4*pi) * ln(r^2). Stated from the spec words, for
comparison against the code. -/
noncomputable def ss_psi_spec_logform (strength xs ys X Y : ℝ) : ℝ :=
  strength/(4*Real.pi)*Real.log ((X-xs)^2+(Y-ys)^2)

/-- Claim C5: for every strength s, position (xs, ys) and grid point
(X, Y) distinct from (xs, ys), the Cartesian source/sink evaluators
return u = s/(2pi)*(X-xs)/r2, v = s/(2pi)*(Y-ys)/r2 and
psi = s/(2pi)*atan2(Y-ys, X-xs) with r2 = (X-xs)^2+(Y-ys)^2, for both
get_ss_info and the Source class methods. -/
theorem source_evaluators (s xs ys X Y : ℝ) (h : (X, Y) ≠ (xs, ys)) :
    get_ss_info s xs ys X Y =
      (s/(2*Real.pi) * ((X-xs)/((X-xs)^2+(Y-ys)^2)),
       s/(2*Real.pi) * ((Y-ys)/((X-xs)^2+(Y-ys)^2)),
       s/(2*Real.pi) * arctan2 (Y-ys) (X-xs))
    ∧ Source.velocity ⟨s, xs, ys⟩ X Y =
      (s/(2*Real.pi) * ((X-xs)/((X-xs)^2+(Y-ys)^2)),
       s/(2*Real.pi) * ((Y-ys)/((X-xs)^2+(Y-ys)^2)))
    ∧ Source.stream_function ⟨s, xs, ys⟩ X Y =
      s/(2*Real.pi) * arctan2 (Y-ys) (X-xs) := by
  refine ⟨?_, ?_, ?_⟩
  · simp only [get_ss_info, Prod.mk.injEq]
    exact ⟨by ring, by ring, by ring⟩
  · simp only [Source.velocity, Prod.mk.injEq]
    exact ⟨by ring, by ring⟩
  · rfl

/-- Witness for source_evaluators at s = 1, singularity at the origin,
grid point (1, 0). -/
theorem source_evaluators_witness :
    ((1:ℝ), (0:ℝ)) ≠ ((0:ℝ), (0:ℝ)) ∧
    (get_ss_info 1 0 0 1 0 =
      (1/(2*Real.pi) * (((1:ℝ)-0)/(((1:ℝ)-0)^2+((0:ℝ)-0)^2)),
       1/(2*Real.pi) * (((0:ℝ)-0)/(((1:ℝ)-0)^2+((0:ℝ)-0)^2)),
       1/(2*Real.pi) * arctan2 ((0:ℝ)-0) ((1:ℝ)-0))
    ∧ Source.velocity ⟨1, 0, 0⟩ 1 0 =
      (1/(2*Real.pi) * (((1:ℝ)-0)/(((1:ℝ)-0)^2+((0:ℝ)-0)^2)),
       1/(2*Real.pi) * (((0:ℝ)-0)/(((1:ℝ)-0)^2+((0:ℝ)-0)^2)))
    ∧ Source.stream_function ⟨1, 0, 0⟩ 1 0 =
      1/(2*Real.pi) * arctan2 ((0:ℝ)-0) ((1:ℝ)-0)) :=
  ⟨by norm_num [Prod.ext_iff], source_evaluators 1 0 0 1 0 (by norm_num [Prod.ext_iff])⟩

/-- Claim C8: for every doublet moment k, position (xd, yd) and grid
point (X, Y) distinct from (xd, yd), get_doublet_info returns
u = -k/(2pi)*((X-xd)^2-(Y-yd)^2)/r2^2, v = -k/(2pi)*2(X-xd)(Y-yd)/r2^2
and psi = -k/(2pi)*(Y-yd)/r2 with r2 = (X-xd)^2+(Y-yd)^2. -/
theorem doublet_info_spec (k xd yd X Y : ℝ) (h : (X, Y) ≠ (xd, yd)) :
    get_doublet_info k xd yd X Y =
      (-(k/(2*Real.pi)) * (((X-xd)^2-(Y-yd)^2)/((X-xd)^2+(Y-yd)^2)^2),
       -(k/(2*Real.pi)) * (2*(X-xd)*(Y-yd)/((X-xd)^2+(Y-yd)^2)^2),
       -(k/(2*Real.pi)) * ((Y-yd)/((X-xd)^2+(Y-yd)^2))) := by
  simp only [get_doublet_info, Prod.mk.injEq]
  exact ⟨by ring, by ring, by ring⟩

/-- Witness for doublet_info_spec at k = 1, doublet at the origin, grid
point (1, 2). -/
theorem doublet_info_spec_witness :
    ((1:ℝ), (2:ℝ)) ≠ ((0:ℝ), (0:ℝ)) ∧
    get_doublet_info 1 0 0 1 2 =
      (-((1:ℝ)/(2*Real.pi)) * ((((1:ℝ)-0)^2-((2:ℝ)-0)^2)/(((1:ℝ)-0)^2+((2:ℝ)-0)^2)^2),
       -((1:ℝ)/(2*Real.pi)) * (2*((1:ℝ)-0)*((2:ℝ)-0)/(((1:ℝ)-0)^2+((2:ℝ)-0)^2)^2),
       -((1:ℝ)/(2*Real.pi)) * (((2:ℝ)-0)/(((1:ℝ)-0)^2+((2:ℝ)-0)^2))) :=
  ⟨by norm_num [Prod.ext_iff], doublet_info_spec 1 0 0 1 2 (by norm_num [Prod.ext_iff])⟩

/-- Claim C4: get_freestream_info returns u identically u_inf*cos(alpha)
at every cell, v identically 0 at every cell regardless of alpha (the
zeros((N,N)) inconsistency), and psi = u_inf*(Y*cos(alpha) - X*sin(alpha))
at every cell. -/
theorem freestream_info_values (u_inf alpha : ℝ) (X Y : Arr) (N : ℕ)
    (i j : ℕ) :
    (get_freestream_info u_inf alpha X Y N).1.data i j = u_inf * Real.cos alpha
    ∧ (get_freestream_info u_inf alpha X Y N).2.1.data i j = 0
    ∧ (get_freestream_info u_inf alpha X Y N).2.2.data i j =
        u_inf * (Y.data i j * Real.cos alpha - X.data i j * Real.sin alpha) := by
  refine ⟨?_, ?_, ?_⟩ <;>
    simp only [get_freestream_info, Arr.smul, Arr.sub, Arr.ones, Arr.zeros] <;>
    ring

/-- Claim C7: get_velocity_infinite_vortices with a vortex-position array
of at least two entries sets a to the difference of the first two entries
and c = 2pi/a, and returns exactly the pair
u = (g/(2a))*sinh(cY)/(cosh(cY)-cos(cX)) and
v = -(g/(2a))*sin(cX)/(cosh(cY)-cos(cX)), with no psi output. -/
theorem infinite_vortices_spec (g X Y v0 v1 : ℝ) (rest : List ℝ) :
    get_velocity_infinite_vortices g X Y (v0 :: v1 :: rest) =
      ((g/(2*(v1 - v0))) *
        (Real.sinh (2*Real.pi/(v1 - v0)*Y) /
          (Real.cosh (2*Real.pi/(v1 - v0)*Y) - Real.cos (2*Real.pi/(v1 - v0)*X))),
       (-(g/(2*(v1 - v0)))) *
        (Real.sin (2*Real.pi/(v1 - v0)*X) /
          (Real.cosh (2*Real.pi/(v1 - v0)*Y) - Real.cos (2*Real.pi/(v1 - v0)*X)))) := by
  simp only [get_velocity_infinite_vortices, List.getD]
  rfl

/-- Claim C1 (amended): for every circulation g, vortex position (x0, y0)
and grid point (X, Y) distinct from (x0, y0), both vortex evaluators
return u = +g/(2pi)*(Y-y0)/r2 and v = -g/(2pi)*(X-x0)/r2; the stream
function psi = -g/(4pi)*ln(r2) is returned by Vortex.stream_function
only, while get_vortex_info returns psi = +g/(4pi)*ln(sqrt(r2)); the
concrete check get_vortex_info(1, 0, 0) at the point (1, 0) yields
u = 0, v = -1/(2pi), psi = 0. -/
theorem vortex_evaluators_amended (g x0 y0 X Y : ℝ) (h : (X, Y) ≠ (x0, y0)) :
    Vortex.velocity ⟨g, x0, y0⟩ X Y =
      (g/(2*Real.pi) * ((Y-y0)/((X-x0)^2+(Y-y0)^2)),
       -(g/(2*Real.pi)) * ((X-x0)/((X-x0)^2+(Y-y0)^2)))
    ∧ Vortex.stream_function ⟨g, x0, y0⟩ X Y =
        -(g/(4*Real.pi)) * Real.log ((X-x0)^2+(Y-y0)^2)
    ∧ get_vortex_info g x0 y0 X Y =
      (g/(2*Real.pi) * ((Y-y0)/((X-x0)^2+(Y-y0)^2)),
       -(g/(2*Real.pi)) * ((X-x0)/((X-x0)^2+(Y-y0)^2)),
       g/(4*Real.pi) * Real.log (Real.sqrt ((X-x0)^2+(Y-y0)^2)))
    ∧ get_vortex_info 1 0 0 1 0 = (0, -(1/(2*Real.pi)), 0) := by
  refine ⟨?_, ?_, ?_, ?_⟩
  · simp only [Vortex.velocity, Prod.mk.injEq]
    exact ⟨by ring, by ring⟩
  · simp only [Vortex.stream_function]
    ring
  · simp only [get_vortex_info, Prod.mk.injEq]
    exact ⟨by ring, by ring, by ring⟩
  · simp only [get_vortex_info, Prod.mk.injEq]
    norm_num
    ring

/-- Witness for vortex_evaluators_amended at g = 1, vortex at the
origin, grid point (1, 0). -/
theorem vortex_evaluators_amended_witness :
    ((1:ℝ), (0:ℝ)) ≠ ((0:ℝ), (0:ℝ)) ∧
    (Vortex.velocity ⟨1, 0, 0⟩ 1 0 =
      ((1:ℝ)/(2*Real.pi) * ((((0:ℝ)-0))/(((1:ℝ)-0)^2+((0:ℝ)-0)^2)),
       -((1:ℝ)/(2*Real.pi)) * ((((1:ℝ)-0))/(((1:ℝ)-0)^2+((0:ℝ)-0)^2)))
    ∧ Vortex.stream_function ⟨1, 0, 0⟩ 1 0 =
        -((1:ℝ)/(4*Real.pi)) * Real.log (((1:ℝ)-0)^2+((0:ℝ)-0)^2)
    ∧ get_vortex_info 1 0 0 1 0 =
      ((1:ℝ)/(2*Real.pi) * ((((0:ℝ)-0))/(((1:ℝ)-0)^2+((0:ℝ)-0)^2)),
       -((1:ℝ)/(2*Real.pi)) * ((((1:ℝ)-0))/(((1:ℝ)-0)^2+((0:ℝ)-0)^2)),
       (1:ℝ)/(4*Real.pi) * Real.log (Real.sqrt (((1:ℝ)-0)^2+((0:ℝ)-0)^2)))
    ∧ get_vortex_info 1 0 0 1 0 = (0, -(1/(2*Real.pi)), 0)) :=
  ⟨by norm_num [Prod.ext_iff],
   vortex_evaluators_amended 1 0 0 1 0 (by norm_num [Prod.ext_iff])⟩

/-- Counterexample to claim C1 as stated: at circulation 1, vortex at
the origin and grid point (2, 0), get_vortex_info does not return
psi = -1/(4pi)*ln(r2); the code computes +1/(4pi)*ln(sqrt(r2)) there. -/
theorem vortex_info_psi_counterexample :
    (get_vortex_info 1 0 0 2 0).2.2 ≠
      -((1:ℝ)/(4*Real.pi)) * Real.log (((2:ℝ)-0)^2+((0:ℝ)-0)^2) := by
  have hlog : 0 < Real.log 2 := Real.log_pos (by norm_num)
  have hpi : (0:ℝ) < Real.pi := Real.pi_pos
  have esqrt : Real.sqrt 4 = 2 := by
    rw [show (4:ℝ) = 2^2 by norm_num]
    exact Real.sqrt_sq (by norm_num)
  have elog4 : Real.log 4 = 2 * Real.log 2 := by
    rw [show (4:ℝ) = 2^2 by norm_num, Real.log_pow]
    push_cast
    ring
  intro hcontra
  simp only [get_vortex_info] at hcontra
  norm_num at hcontra
  rw [esqrt, elog4] at hcontra
  have hpin : Real.pi ≠ 0 := ne_of_gt hpi
  field_simp at hcontra
  linarith

/-- Claim C2 (amended): the Source wrapper is equivalent to get_ss_info
in all three components; the Vortex wrapper agrees with get_vortex_info
on u and v, but the two stream functions differ: Vortex.stream_function
is -s/(4pi)*ln(r2) while get_vortex_info returns +s/(4pi)*ln(sqrt(r2)). -/
theorem wrapper_equivalence_amended (s x0 y0 X Y : ℝ) :
    ((Source.velocity ⟨s, x0, y0⟩ X Y).1,
     (Source.velocity ⟨s, x0, y0⟩ X Y).2,
     Source.stream_function ⟨s, x0, y0⟩ X Y) = get_ss_info s x0 y0 X Y
    ∧ (Vortex.velocity ⟨s, x0, y0⟩ X Y).1 = (get_vortex_info s x0 y0 X Y).1
    ∧ (Vortex.velocity ⟨s, x0, y0⟩ X Y).2 = (get_vortex_info s x0 y0 X Y).2.1
    ∧ Vortex.stream_function ⟨s, x0, y0⟩ X Y =
        -(s/(4*Real.pi)) * Real.log ((X-x0)^2+(Y-y0)^2)
    ∧ (get_vortex_info s x0 y0 X Y).2.2 =
        s/(4*Real.pi) * Real.log (Real.sqrt ((X-x0)^2+(Y-y0)^2)) := by
  refine ⟨rfl, rfl, rfl, ?_, rfl⟩
  simp only [Vortex.stream_function]
  ring

/-- Counterexample to claim C2 as stated: at strength 1, position the
origin and grid point (2, 0), the Vortex wrapper attribute psi differs
from the psi component returned by get_vortex_info. -/
theorem wrapper_vortex_psi_counterexample :
    Vortex.stream_function ⟨1, 0, 0⟩ 2 0 ≠ (get_vortex_info 1 0 0 2 0).2.2 := by
  have hlog : 0 < Real.log 2 := Real.log_pos (by norm_num)
  have hpi : (0:ℝ) < Real.pi := Real.pi_pos
  have esqrt : Real.sqrt 4 = 2 := by
    rw [show (4:ℝ) = 2^2 by norm_num]
    exact Real.sqrt_sq (by norm_num)
  have elog4 : Real.log 4 = 2 * Real.log 2 := by
    rw [show (4:ℝ) = 2^2 by norm_num, Real.log_pow]
    push_cast
    ring
  intro hcontra
  simp only [Vortex.stream_function, get_vortex_info] at hcontra
  norm_num at hcontra
  rw [esqrt, elog4] at hcontra
  have hpin : Real.pi ≠ 0 := ne_of_gt hpi
  field_simp at hcontra
  nlinarith [mul_pos hlog hpi]

/-- Claim C3 (amended): get_ss_info computes its stream function in the
atan2 form s/(2pi)*atan2(Y-ys, X-xs), identical to
Source.stream_function; the sqrt-then-log form s/(4pi)*ln(sqrt(r2)) is
used by get_vortex_info, not by get_ss_info. -/
theorem ss_stream_function_form_amended (s xs ys X Y : ℝ)
    (h : (X, Y) ≠ (xs, ys)) :
    (get_ss_info s xs ys X Y).2.2 = s/(2*Real.pi) * arctan2 (Y-ys) (X-xs)
    ∧ (get_ss_info s xs ys X Y).2.2 = Source.stream_function ⟨s, xs, ys⟩ X Y
    ∧ (get_vortex_info s xs ys X Y).2.2 =
        s/(4*Real.pi) * Real.log (Real.sqrt ((X-xs)^2+(Y-ys)^2)) :=
  ⟨rfl, rfl, rfl⟩

/-- Witness for ss_stream_function_form_amended at s = 1, singularity at
the origin, grid point (0, 1). -/
theorem ss_stream_function_form_witness :
    ((0:ℝ), (1:ℝ)) ≠ ((0:ℝ), (0:ℝ)) ∧
    ((get_ss_info 1 0 0 0 1).2.2 = 1/(2*Real.pi) * arctan2 ((1:ℝ)-0) ((0:ℝ)-0)
    ∧ (get_ss_info 1 0 0 0 1).2.2 = Source.stream_function ⟨1, 0, 0⟩ 0 1
    ∧ (get_vortex_info 1 0 0 0 1).2.2 =
        1/(4*Real.pi) * Real.log (Real.sqrt (((0:ℝ)-0)^2+((1:ℝ)-0)^2))) :=
  ⟨by norm_num [Prod.ext_iff],
   ss_stream_function_form_amended 1 0 0 0 1 (by norm_num [Prod.ext_iff])⟩

/-- Counterexample to claim C3 as stated: at strength 1, singularity at
the origin and grid point (0, 1), the stream function computed by
get_ss_info (the atan2 form, equal to 1/4 there) differs from the
log form 1/(4pi)*ln(r2) the spec attributes to it (equal to 0 there). -/
theorem ss_info_logform_counterexample :
    (get_ss_info 1 0 0 0 1).2.2 ≠ ss_psi_spec_logform 1 0 0 0 1 := by
  have hpi : (0:ℝ) < Real.pi := Real.pi_pos
  have hI : (⟨(0:ℝ)-0, (1:ℝ)-0⟩ : ℂ) = Complex.I := by
    refine Complex.ext ?_ ?_ <;> norm_num [Complex.I]
  have harg : arctan2 ((1:ℝ)-0) ((0:ℝ)-0) = Real.pi/2 := by
    rw [arctan2, hI, Complex.arg_I]
  have hpin : Real.pi ≠ 0 := ne_of_gt hpi
  intro hcontra
  simp only [get_ss_info, ss_psi_spec_logform] at hcontra
  rw [harg] at hcontra
  have h1 : ((0:ℝ)-0)^2+((1:ℝ)-0)^2 = 1 := by norm_num
  rw [h1, Real.log_one, mul_zero] at hcontra
  have hval : (1:ℝ)/(2*Real.pi)*(Real.pi/2) = 1/4 := by
    field_simp
    ring
  rw [hval] at hcontra
  norm_num at hcontra

/-- Claim C6: for every N > 1 and bounds, create_grid returns two arrays
of shape (N, N) with X[i,j] = x_start + j*(x_end-x_start)/(N-1) varying
by column and Y[i,j] = y_start + i*(y_end-y_start)/(N-1) varying by row;
in particular create_grid 5 0 4 0 4 returns X with every row equal to
[0,1,2,3,4] and Y with every column equal to [0,1,2,3,4]. -/
theorem create_grid_spec (N : ℕ) (xs xe ys ye : ℝ) (hN : 1 < N) (i j : ℕ) :
    (create_grid N xs xe ys ye).1.rows = N
    ∧ (create_grid N xs xe ys ye).1.cols = N
    ∧ (create_grid N xs xe ys ye).2.rows = N
    ∧ (create_grid N xs xe ys ye).2.cols = N
    ∧ (create_grid N xs xe ys ye).1.data i j = xs + j * (xe - xs) / ((N : ℝ) - 1)
    ∧ (create_grid N xs xe ys ye).2.data i j = ys + i * (ye - ys) / ((N : ℝ) - 1)
    ∧ ((List.range 5).map fun a => (List.range 5).map fun b =>
        (create_grid 5 0 4 0 4).1.data a b) =
        [[0, 1, 2, 3, 4], [0, 1, 2, 3, 4], [0, 1, 2, 3, 4],
         [0, 1, 2, 3, 4], [0, 1, 2, 3, 4]]
    ∧ ((List.range 5).map fun a => (List.range 5).map fun b =>
        (create_grid 5 0 4 0 4).2.data a b) =
        [[0, 0, 0, 0, 0], [1, 1, 1, 1, 1], [2, 2, 2, 2, 2],
         [3, 3, 3, 3, 3], [4, 4, 4, 4, 4]] := by
  have hnot : ¬ N ≤ 1 := by omega
  refine ⟨rfl, rfl, rfl, rfl, ?_, ?_, ?_, ?_⟩
  · simp only [create_grid, meshgrid, linspace, if_neg hnot]
  · simp only [create_grid, meshgrid, linspace, if_neg hnot]
  · norm_num [create_grid, meshgrid, linspace, List.range_succ]
  · norm_num [create_grid, meshgrid, linspace, List.range_succ]

/-- Witness for create_grid_spec at N = 5, bounds 0..4, cell (2, 3). -/
theorem create_grid_spec_witness :
    1 < 5 ∧
    ((create_grid 5 0 4 0 4).1.rows = 5
    ∧ (create_grid 5 0 4 0 4).1.cols = 5
    ∧ (create_grid 5 0 4 0 4).2.rows = 5
    ∧ (create_grid 5 0 4 0 4).2.cols = 5
    ∧ (create_grid 5 0 4 0 4).1.data 2 3 =
        0 + ((3:ℕ):ℝ) * ((4:ℝ) - 0) / (((5:ℕ):ℝ) - 1)
    ∧ (create_grid 5 0 4 0 4).2.data 2 3 =
        0 + ((2:ℕ):ℝ) * ((4:ℝ) - 0) / (((5:ℕ):ℝ) - 1)
    ∧ ((List.range 5).map fun a => (List.range 5).map fun b =>
        (create_grid 5 0 4 0 4).1.data a b) =
        [[0, 1, 2, 3, 4], [0, 1, 2, 3, 4], [0, 1, 2, 3, 4],
         [0, 1, 2, 3, 4], [0, 1, 2, 3, 4]]
    ∧ ((List.range 5).map fun a => (List.range 5).map fun b =>
        (create_grid 5 0 4 0 4).2.data a b) =
        [[0, 0, 0, 0, 0], [1, 1, 1, 1, 1], [2, 2, 2, 2, 2],
         [3, 3, 3, 3, 3], [4, 4, 4, 4, 4]]) :=
  ⟨by norm_num, create_grid_spec 5 0 4 0 4 (by norm_num) 2 3⟩

/-- Claim C10: in get_freestream_info the shapes of u and v are (N, N),
fixed by the scalar argument N alone, while the shape of psi follows the
grid arrays; so whenever the equally-shaped grid arrays X, Y do not have
shape (N, N), the three returned arrays do not all share one shape, and
no error is raised (the embedding is total). -/
theorem freestream_shape_mismatch (u_inf alpha : ℝ) (X Y : Arr) (N : ℕ)
    (hr : X.rows = Y.rows) (hc : X.cols = Y.cols)
    (hmz : ¬(Y.rows = N ∧ Y.cols = N)) :
    (get_freestream_info u_inf alpha X Y N).1.rows = N
    ∧ (get_freestream_info u_inf alpha X Y N).1.cols = N
    ∧ (get_freestream_info u_inf alpha X Y N).2.1.rows = N
    ∧ (get_freestream_info u_inf alpha X Y N).2.1.cols = N
    ∧ (get_freestream_info u_inf alpha X Y N).2.2.rows = Y.rows
    ∧ (get_freestream_info u_inf alpha X Y N).2.2.cols = Y.cols
    ∧ ¬((get_freestream_info u_inf alpha X Y N).2.2.rows =
          (get_freestream_info u_inf alpha X Y N).1.rows
        ∧ (get_freestream_info u_inf alpha X Y N).2.2.cols =
          (get_freestream_info u_inf alpha X Y N).1.cols) := by
  refine ⟨rfl, rfl, rfl, rfl, rfl, rfl, ?_⟩
  simpa [get_freestream_info, Arr.smul, Arr.sub, Arr.ones, Arr.zeros] using hmz

/-- Witness for freestream_shape_mismatch at a 2-by-2 grid and N = 3. -/
theorem freestream_shape_mismatch_witness :
    (Arr.zeros 2 2).rows = (Arr.zeros 2 2).rows
    ∧ (Arr.zeros 2 2).cols = (Arr.zeros 2 2).cols
    ∧ ¬((Arr.zeros 2 2).rows = 3 ∧ (Arr.zeros 2 2).cols = 3)
    ∧ ((get_freestream_info 1 0 (Arr.zeros 2 2) (Arr.zeros 2 2) 3).1.rows = 3
    ∧ (get_freestream_info 1 0 (Arr.zeros 2 2) (Arr.zeros 2 2) 3).1.cols = 3
    ∧ (get_freestream_info 1 0 (Arr.zeros 2 2) (Arr.zeros 2 2) 3).2.1.rows = 3
    ∧ (get_freestream_info 1 0 (Arr.zeros 2 2) (Arr.zeros 2 2) 3).2.1.cols = 3
    ∧ (get_freestream_info 1 0 (Arr.zeros 2 2) (Arr.zeros 2 2) 3).2.2.rows =
        (Arr.zeros 2 2).rows
    ∧ (get_freestream_info 1 0 (Arr.zeros 2 2) (Arr.zeros 2 2) 3).2.2.cols =
        (Arr.zeros 2 2).cols
    ∧ ¬((get_freestream_info 1 0 (Arr.zeros 2 2) (Arr.zeros 2 2) 3).2.2.rows =
          (get_freestream_info 1 0 (Arr.zeros 2 2) (Arr.zeros 2 2) 3).1.rows
        ∧ (get_freestream_info 1 0 (Arr.zeros 2 2) (Arr.zeros 2 2) 3).2.2.cols =
          (get_freestream_info 1 0 (Arr.zeros 2 2) (Arr.zeros 2 2) 3).1.cols)) :=
  ⟨rfl, rfl, by norm_num [Arr.zeros],
   freestream_shape_mismatch 1 0 (Arr.zeros 2 2) (Arr.zeros 2 2) 3 rfl rfl
     (by norm_num [Arr.zeros])⟩

end AeroFns
